import Mathlib

/-
Shallow embedding of src/src/ipcc.rs, the IPCC (inter-processor communication
controller) driver of stm32-hal for the STM32WB.

Modelling notes, all reflected from the source text:

  * The source file is unfinished and is not valid Rust: the data parameter
    type and the data register use the placeholder identifiers asdf and dasdf;
    send_simplex calls channel_is_free with a single argument although the
    function takes a Core and a channel; send_half_duplex and
    send_response_half_duplex write Channel::Cn patterns for the IpccChannel
    enum; the match in receive_simplex has an arm only for the first channel.
    The embedding keeps the evident meaning of each of these: the placeholder
    data register becomes a single Nat field dasdf, the Core argument missing
    from the simplex helpers is taken to be Core.C1 (a todo in channel_is_free
    states that the current code is for when processor 1 is transmitting),
    Channel is read as IpccChannel, and the match arms missing from
    receive_simplex give no behaviour, rendered as none.

  * Registers: c1to2sr and c2toc1sr hold the per-channel CHnF occupancy flags
    (true = occupied, bit_is_clear = free); writing CHnS of cNscr sets and
    writing CHnC clears the corresponding CHnF flag; cNmr holds the CHnFM
    (channel free) and CHnOM (channel occupied) interrupt masks, where true
    means masked and clear_bit unmasks. Ipcc::new touches only RCC enable and
    reset bits, which are outside this model, and never writes IPCC registers.

  * The unbounded busy-waits of the half-duplex calls spin on a pure read of
    the shared state; with no concurrent peer in this sequential model, a wait
    whose condition holds at entry never terminates, which the embedding
    renders as the result none. When the wait passes immediately, the rest of
    the body runs and the updated state is returned as some.
-/

/-- Represents one of six channels, used for both Core1 and Core2 channels
(enum IpccChannel in the source). -/
inductive IpccChannel
  | C1
  | C2
  | C3
  | C4
  | C5
  | C6
  deriving DecidableEq

/-- The core performing the requested operation: Core 1 is the M4 core and
Core 2 is the M0+ core (enum Core in the source). -/
inductive Core
  | C1
  | C2
  deriving DecidableEq

/-- The IPCC register state the driver touches: the per-channel CHnF occupancy
flags of the two directions, the CHnFM and CHnOM interrupt masks of the two
cores, and the placeholder data register dasdf written by send_simplex. -/
structure IpccState where
  c1to2sr : IpccChannel → Bool
  c2toc1sr : IpccChannel → Bool
  c1mr_fm : IpccChannel → Bool
  c1mr_om : IpccChannel → Bool
  c2mr_fm : IpccChannel → Bool
  c2mr_om : IpccChannel → Bool
  dasdf : Nat

/-- Pointwise update of one channel bit of a per-channel register, the effect
of a modify of the named bit field. -/
def setCh (f : IpccChannel → Bool) (ch : IpccChannel) (b : Bool) :
    IpccChannel → Bool :=
  fun x => if x = ch then b else f x

/-- The CHnF occupancy flag of a Direction, i.e. of a (Core, IpccChannel)
pair: the bit that channel_is_free reads (true = occupied). -/
def flagOf (s : IpccState) (core : Core) (ch : IpccChannel) : Bool :=
  match core with
  | Core.C1 => s.c1to2sr ch
  | Core.C2 => s.c2toc1sr ch

/-- Embeds Ipcc::channel_is_free: reads the CHnF bit of c1to2sr (Core::C1) or
c2toc1sr (Core::C2) for the given channel and reports bit_is_clear. The body
performs only register reads. -/
def channel_is_free (s : IpccState) (core : Core) (channel : IpccChannel) :
    Bool :=
  match core with
  | Core.C1 =>
    match channel with
    | IpccChannel.C1 => !(s.c1to2sr IpccChannel.C1)
    | IpccChannel.C2 => !(s.c1to2sr IpccChannel.C2)
    | IpccChannel.C3 => !(s.c1to2sr IpccChannel.C3)
    | IpccChannel.C4 => !(s.c1to2sr IpccChannel.C4)
    | IpccChannel.C5 => !(s.c1to2sr IpccChannel.C5)
    | IpccChannel.C6 => !(s.c1to2sr IpccChannel.C6)
  | Core.C2 =>
    match channel with
    | IpccChannel.C1 => !(s.c2toc1sr IpccChannel.C1)
    | IpccChannel.C2 => !(s.c2toc1sr IpccChannel.C2)
    | IpccChannel.C3 => !(s.c2toc1sr IpccChannel.C3)
    | IpccChannel.C4 => !(s.c2toc1sr IpccChannel.C4)
    | IpccChannel.C5 => !(s.c2toc1sr IpccChannel.C5)
    | IpccChannel.C6 => !(s.c2toc1sr IpccChannel.C6)

/-- Effect of the cNscr CHnS write of send_half_duplex: sets the CHnF flag of
the given direction to occupied. -/
def scr_set (s : IpccState) (core : Core) (ch : IpccChannel) : IpccState :=
  match core with
  | Core.C1 => { s with c1to2sr := setCh s.c1to2sr ch true }
  | Core.C2 => { s with c2toc1sr := setCh s.c2toc1sr ch true }

/-- Effect of the cNscr CHnC write of send_response_half_duplex: clears the
CHnF flag of the given direction back to free. -/
def scr_clear (s : IpccState) (core : Core) (ch : IpccChannel) : IpccState :=
  match core with
  | Core.C1 => { s with c1to2sr := setCh s.c1to2sr ch false }
  | Core.C2 => { s with c2toc1sr := setCh s.c2toc1sr ch false }

/-- Effect of the cNmr chNfm clear_bit write: unmasks the channel-free
interrupt of the given core and channel. -/
def mr_clear_fm (s : IpccState) (core : Core) (ch : IpccChannel) : IpccState :=
  match core with
  | Core.C1 => { s with c1mr_fm := setCh s.c1mr_fm ch false }
  | Core.C2 => { s with c2mr_fm := setCh s.c2mr_fm ch false }

/-- Embeds Ipcc::send_simplex. The source checks channel_is_free(channel)
(the Core argument is missing in the call; per the todo in channel_is_free the
current code is for processor 1 transmitting, hence Core.C1 here) and, when
free, writes data into the placeholder register field asdf.dasdf. The occupied
branch is an empty todo, and no CHnS status write is present anywhere in the
body, so no flag and no mask ever changes. The Rust function returns unit, so
the only result is the updated state. -/
def send_simplex (s : IpccState) (channel : IpccChannel) (data : Nat) :
    IpccState :=
  if channel_is_free s Core.C1 channel then
    { s with dasdf := data }
  else
    s

/-- Embeds Ipcc::receive_simplex. The source matches the channel and has an
arm only for IpccChannel::C1, which clears the ch10M (CH1OM, channel-occupied
mask) bit of the placeholder mask register; the other five channels have no
arm, rendered as none. No data is read and no status flag is written. -/
def receive_simplex (s : IpccState) (channel : IpccChannel) :
    Option IpccState :=
  match channel with
  | IpccChannel.C1 =>
      some { s with c1mr_om := setCh s.c1mr_om IpccChannel.C1 false }
  | _ => none

/-- Embeds Ipcc::send_half_duplex: busy-waits while the direction is not free
(none when the wait would spin forever), then writes CHnS of cNscr (setting
the flag to occupied) and then clears chNfm of cNmr (unmasking the
channel-free interrupt). The data argument is never written anywhere. -/
def send_half_duplex (s : IpccState) (core : Core) (channel : IpccChannel)
    (data : Nat) : Option IpccState :=
  if channel_is_free s core channel then
    some (mr_clear_fm (scr_set s core channel) core channel)
  else
    none

/-- Embeds Ipcc::send_response_half_duplex: busy-waits while the direction is
free (none when the wait would spin forever), then writes CHnC of cNscr
(clearing the flag to free) and then clears chNfm of cNmr, i.e. it unmasks
the channel-free interrupt, not the channel-occupied one. The response write
is a todo and the data argument is never written anywhere. -/
def send_response_half_duplex (s : IpccState) (core : Core)
    (channel : IpccChannel) (data : Nat) : Option IpccState :=
  if channel_is_free s core channel then
    none
  else
    some (mr_clear_fm (scr_clear s core channel) core channel)

/-- Embeds Ipcc::receive_half_duplex: the body of the source function consists
only of comments, so the state is returned unchanged. -/
def receive_half_duplex (s : IpccState) (channel : IpccChannel) : IpccState :=
  s

/-- Error taxonomy of the specification (section 7). -/
inductive IpccError
  | InvalidState
  | ChannelBusy
  deriving DecidableEq

/-- Modelled from the spec: finish_receive is missing from src — the retrieval
path of receive_simplex (read the data, clear the channel status to free with
CHnC) exists only as comments, and no function of the source returns a payload
or an error. Spec section 4.3: finish_receive(channel) is callable only when
the direction reads Occupied; it copies out the payload, then sets the
direction free; calling it while Free is a programming error signalled as an
InvalidState failure with no mutation. The direction is the simplex direction
of the source helpers, processor 1 transmitting. -/
def finish_receive (s : IpccState) (channel : IpccChannel) :
    IpccState × Except IpccError Nat :=
  if channel_is_free s Core.C1 channel then
    (s, Except.error IpccError.InvalidState)
  else
    ({ s with c1to2sr := setCh s.c1to2sr channel false },
      Except.ok s.dasdf)

/-- The operations the driver exposes on an existing IpccState, used to state
invariants over every operation at once. Ipcc::new only touches RCC bits and
never writes IPCC registers, so it is not an operation on an IpccState. -/
inductive IpccOp
  | sendSimplex (channel : IpccChannel) (data : Nat)
  | receiveSimplex (channel : IpccChannel)
  | sendHalfDuplex (core : Core) (channel : IpccChannel) (data : Nat)
  | sendResponseHalfDuplex (core : Core) (channel : IpccChannel) (data : Nat)
  | receiveHalfDuplex (channel : IpccChannel)
  | channelIsFree (core : Core) (channel : IpccChannel)

/-- One driver call as a state transformer. A blocked busy-wait (result none)
and a channel with no match arm leave the state as it was, since the call
never completes an effect; channel_is_free performs only reads. -/
def ipccStep (s : IpccState) (op : IpccOp) : IpccState :=
  match op with
  | IpccOp.sendSimplex ch d => send_simplex s ch d
  | IpccOp.receiveSimplex ch => (receive_simplex s ch).getD s
  | IpccOp.sendHalfDuplex core ch d => (send_half_duplex s core ch d).getD s
  | IpccOp.sendResponseHalfDuplex core ch d =>
      (send_response_half_duplex s core ch d).getD s
  | IpccOp.receiveHalfDuplex ch => receive_half_duplex s ch
  | IpccOp.channelIsFree _ _ => s

/-- The state right after initialization per spec section 3: every direction
Free, every mask masked, data register cleared. -/
def initState : IpccState where
  c1to2sr := fun _ => false
  c2toc1sr := fun _ => false
  c1mr_fm := fun _ => true
  c1mr_om := fun _ => true
  c2mr_fm := fun _ => true
  c2mr_om := fun _ => true
  dasdf := 0

/-- A state in which the direction (Core.C1, channel C1) is Occupied with a
pending payload value 99 in the data register; all masks masked. -/
def occState : IpccState :=
  { initState with
      c1to2sr := setCh (fun _ => false) IpccChannel.C1 true
      dasdf := 99 }

theorem channel_is_free_eq_not_flagOf (s : IpccState) (core : Core)
    (ch : IpccChannel) : channel_is_free s core ch = !(flagOf s core ch) := by
  cases core <;> cases ch <;> rfl

theorem flagOf_mr_clear_fm (s : IpccState) (c' : Core) (ch' : IpccChannel)
    (core : Core) (ch : IpccChannel) :
    flagOf (mr_clear_fm s c' ch') core ch = flagOf s core ch := by
  cases c' <;> cases core <;> rfl

theorem setCh_self (f : IpccChannel → Bool) (ch : IpccChannel) (b : Bool) :
    setCh f ch b ch = b := by
  simp [setCh]

theorem setCh_other (f : IpccChannel → Bool) (ch' : IpccChannel) (b : Bool)
    (x : IpccChannel) (hx : x ≠ ch') : setCh f ch' b x = f x := by
  simp [setCh, hx]

theorem flagOf_scr_set (s : IpccState) (c' : Core) (ch' : IpccChannel)
    (core : Core) (ch : IpccChannel) :
    flagOf (scr_set s c' ch') core ch =
      if core = c' ∧ ch = ch' then true else flagOf s core ch := by
  cases core <;> cases c' <;> by_cases hch : ch = ch' <;>
    simp [scr_set, flagOf, setCh, hch]

theorem flagOf_scr_clear (s : IpccState) (c' : Core) (ch' : IpccChannel)
    (core : Core) (ch : IpccChannel) :
    flagOf (scr_clear s c' ch') core ch =
      if core = c' ∧ ch = ch' then false else flagOf s core ch := by
  cases core <;> cases c' <;> by_cases hch : ch = ch' <;>
    simp [scr_clear, flagOf, setCh, hch]

theorem flagOf_send_simplex (s : IpccState) (ch' : IpccChannel) (d : Nat)
    (core : Core) (ch : IpccChannel) :
    flagOf (send_simplex s ch' d) core ch = flagOf s core ch := by
  unfold send_simplex
  split <;> cases core <;> rfl

theorem flagOf_receive_simplex (s : IpccState) (ch' : IpccChannel)
    (core : Core) (ch : IpccChannel) :
    flagOf ((receive_simplex s ch').getD s) core ch = flagOf s core ch := by
  cases ch' <;> cases core <;> rfl

/-- Claim C1: the spec states that a simplex send of a payload P on a Free
direction followed by finish_receive yields exactly P with the direction back
to Free. On the code this fails: send_simplex writes the payload into the data
register but never sets the channel status to occupied (the CHnS write its own
comment describes is absent), so the direction still reads Free and the
spec-modelled finish_receive reports InvalidState instead of yielding P. Shown
here at the concrete scenario of spec section 8: payload 0x42 on channel C3
from the freshly initialized state. -/
theorem simplex_roundtrip_fails_c3 :
    (send_simplex initState IpccChannel.C3 66).dasdf = 66 ∧
    flagOf (send_simplex initState IpccChannel.C3 66) Core.C1 IpccChannel.C3
      = false ∧
    (finish_receive (send_simplex initState IpccChannel.C3 66)
        IpccChannel.C3).2 = Except.error IpccError.InvalidState :=
  ⟨rfl, rfl, rfl⟩

/-- Claim C2: on an Occupied direction, send_simplex is a pure no-op: the
whole register state, the pending payload 99 in the data register included, is
returned unchanged, nothing is retried or queued. But the Rust function
returns unit, so no ChannelBusy rejection (nor any result at all) reaches the
caller, contradicting the claimed error report; the occupied branch is an
empty todo. -/
theorem send_simplex_busy_noop :
    send_simplex occState IpccChannel.C1 7 = occState ∧
    (send_simplex occState IpccChannel.C1 7).dasdf = 99 ∧
    flagOf (send_simplex occState IpccChannel.C1 7) Core.C1 IpccChannel.C1
      = true :=
  ⟨rfl, rfl, rfl⟩

/-- Claim C3: the spec states that a simplex send on a Free direction writes
the payload and then sets the direction Occupied. On the code the payload
write happens (dasdf becomes 0x42) but no flag transition follows: the
direction still reads Free after the call, so the second half of the claim
fails. -/
theorem send_simplex_never_sets_occupied :
    (send_simplex initState IpccChannel.C1 66).dasdf = 66 ∧
    flagOf (send_simplex initState IpccChannel.C1 66) Core.C1 IpccChannel.C1
      = false ∧
    channel_is_free (send_simplex initState IpccChannel.C1 66) Core.C1
      IpccChannel.C1 = true :=
  ⟨rfl, rfl, rfl⟩

/-- Claim C4: send_half_duplex blocks while the direction is Occupied (none),
and on a Free direction it sets the status flag Occupied and unmasks the
channel-free interrupt — but it never posts the payload: the data argument 5
is written nowhere and the data register keeps its initial value 0, so the
claimed payload write fails on the code. -/
theorem send_half_duplex_drops_payload :
    send_half_duplex occState Core.C1 IpccChannel.C1 5 = none ∧
    (send_half_duplex initState Core.C1 IpccChannel.C1 5).map
        (fun s => (flagOf s Core.C1 IpccChannel.C1,
          s.c1mr_fm IpccChannel.C1, s.dasdf))
      = some (true, false, 0) :=
  ⟨rfl, rfl⟩

/-- Claim C5: send_response_half_duplex blocks while the direction is Free
(none), and on an Occupied direction it clears the status flag back to Free —
but it writes no response payload (the data argument 3 is written nowhere, the
data register keeps 99), and it unmasks the channel-free mask chNfm while
leaving the channel-occupied mask chNom untouched, the opposite of the
claimed on-occupied unmask; the trailing comment of the source states CHnOM
should be unmasked. -/
theorem send_response_wrong_unmask :
    send_response_half_duplex initState Core.C1 IpccChannel.C1 3 = none ∧
    (send_response_half_duplex occState Core.C1 IpccChannel.C1 3).map
        (fun s => (flagOf s Core.C1 IpccChannel.C1,
          s.c1mr_fm IpccChannel.C1, s.c1mr_om IpccChannel.C1, s.dasdf))
      = some (false, false, true, 99) :=
  ⟨rfl, rfl⟩

/-- Claim C7: the spec states that the simplex prepare-receive unmasks the
channel-occupied interrupt for every channel. On the code the match has an arm
only for the first channel: for channel C2 (and C3 to C6 alike) there is no
behaviour at all (none), so the claim fails beyond C1; for C1 the arm does
unmask chNom while touching no flag and no data. -/
theorem receive_simplex_only_first_channel :
    receive_simplex initState IpccChannel.C2 = none ∧
    receive_simplex initState IpccChannel.C5 = none ∧
    (receive_simplex initState IpccChannel.C1).map
        (fun s => (s.c1mr_om IpccChannel.C1,
          flagOf s Core.C1 IpccChannel.C1, s.dasdf))
      = some (false, false, 0) :=
  ⟨rfl, rfl, rfl⟩

/-- Claim C6: over every driver operation and every state, the CHnF occupancy
flag of a direction changes from Free to Occupied only through the half-duplex
request send addressed at exactly that direction (possible only when the flag
was Free), and from Occupied to Free only through the half-duplex response
send addressed at exactly that direction (possible only when the flag was
Occupied); no other operation — simplex send or receive, half-duplex receive,
or the status query — ever changes any occupancy flag. -/
theorem occupancy_transition_owner (s : IpccState) (op : IpccOp) (core : Core)
    (ch : IpccChannel)
    (h : flagOf (ipccStep s op) core ch ≠ flagOf s core ch) :
    (flagOf s core ch = false ∧
      ∃ d, op = IpccOp.sendHalfDuplex core ch d) ∨
    (flagOf s core ch = true ∧
      ∃ d, op = IpccOp.sendResponseHalfDuplex core ch d) := by
  cases op with
  | sendSimplex ch' d =>
      exact absurd (flagOf_send_simplex s ch' d core ch) h
  | receiveSimplex ch' =>
      exact absurd (flagOf_receive_simplex s ch' core ch) h
  | sendHalfDuplex c' ch' d =>
      simp only [ipccStep, send_half_duplex] at h
      by_cases hfree : channel_is_free s c' ch'
      · rw [if_pos hfree, Option.getD_some, flagOf_mr_clear_fm,
          flagOf_scr_set] at h
        by_cases hd : core = c' ∧ ch = ch'
        · rw [if_pos hd] at h
          obtain ⟨hc, hch⟩ := hd
          subst hc; subst hch
          left
          refine ⟨?_, d, rfl⟩
          cases hb : flagOf s core ch with
          | false => rfl
          | true => exact absurd hb.symm h
        · rw [if_neg hd] at h
          exact absurd rfl h
      · rw [if_neg hfree, Option.getD_none] at h
        exact absurd rfl h
  | sendResponseHalfDuplex c' ch' d =>
      simp only [ipccStep, send_response_half_duplex] at h
      by_cases hfree : channel_is_free s c' ch'
      · rw [if_pos hfree, Option.getD_none] at h
        exact absurd rfl h
      · rw [if_neg hfree, Option.getD_some, flagOf_mr_clear_fm,
          flagOf_scr_clear] at h
        by_cases hd : core = c' ∧ ch = ch'
        · rw [if_pos hd] at h
          obtain ⟨hc, hch⟩ := hd
          subst hc; subst hch
          right
          refine ⟨?_, d, rfl⟩
          cases hb : flagOf s core ch with
          | true => rfl
          | false => exact absurd hb.symm h
        · rw [if_neg hd] at h
          exact absurd rfl h
  | receiveHalfDuplex ch' =>
      exact absurd rfl h
  | channelIsFree c' ch' =>
      exact absurd rfl h

/-- Witness for claim C6 at a concrete input: from the initialized state, the
half-duplex send on direction (Core.C1, C1) flips that flag, and the theorem
attributes the transition to exactly that operation. -/
theorem occupancy_transition_owner_witness :
    (flagOf (ipccStep initState
        (IpccOp.sendHalfDuplex Core.C1 IpccChannel.C1 5)) Core.C1
        IpccChannel.C1
      ≠ flagOf initState Core.C1 IpccChannel.C1) ∧
    ((flagOf initState Core.C1 IpccChannel.C1 = false ∧
        ∃ d, IpccOp.sendHalfDuplex Core.C1 IpccChannel.C1 5
          = IpccOp.sendHalfDuplex Core.C1 IpccChannel.C1 d) ∨
      (flagOf initState Core.C1 IpccChannel.C1 = true ∧
        ∃ d, IpccOp.sendHalfDuplex Core.C1 IpccChannel.C1 5
          = IpccOp.sendResponseHalfDuplex Core.C1 IpccChannel.C1 d)) :=
  ⟨by decide,
    occupancy_transition_owner initState
      (IpccOp.sendHalfDuplex Core.C1 IpccChannel.C1 5) Core.C1 IpccChannel.C1
      (by decide)⟩

/-- Claim C8: calling finish_receive (modelled from the spec, absent from src)
on a direction whose occupancy reads Free returns the InvalidState error and
the state completely unchanged: no flag, mask or payload mutation. -/
theorem finish_receive_invalid_state (s : IpccState) (ch : IpccChannel)
    (h : channel_is_free s Core.C1 ch = true) :
    finish_receive s ch = (s, Except.error IpccError.InvalidState) := by
  simp [finish_receive, h]

/-- Witness for claim C8: in the initialized state channel C1 reads Free and
finish_receive returns InvalidState with the state unchanged. -/
theorem finish_receive_invalid_state_witness :
    channel_is_free initState Core.C1 IpccChannel.C1 = true ∧
    finish_receive initState IpccChannel.C1
      = (initState, Except.error IpccError.InvalidState) :=
  ⟨rfl, finish_receive_invalid_state initState IpccChannel.C1 rfl⟩

/-- Claim C9: channel_is_free is a pure read: as an operation it leaves the
state exactly as it was, its boolean answer is true exactly when the
direction's occupancy flag reads Free (clear), and two calls in the same state
trivially agree since the answer is a function of the state alone. -/
theorem channel_is_free_pure_read (s : IpccState) (core : Core)
    (ch : IpccChannel) :
    ipccStep s (IpccOp.channelIsFree core ch) = s ∧
    (channel_is_free s core ch = true ↔ flagOf s core ch = false) := by
  refine ⟨rfl, ?_⟩
  rw [channel_is_free_eq_not_flagOf]
  cases flagOf s core ch <;> simp

/-- Claim C10: the half-duplex request send and the half-duplex response send
never write their data argument to any register or memory: for any state, core
and channel, two calls differing only in the data argument return identical
results, so the observable effect is independent of the payload argument. -/
theorem half_duplex_data_independent (s : IpccState) (core : Core)
    (ch : IpccChannel) (d1 d2 : Nat) :
    send_half_duplex s core ch d1 = send_half_duplex s core ch d2 ∧
    send_response_half_duplex s core ch d1
      = send_response_half_duplex s core ch d2 :=
  ⟨rfl, rfl⟩
